import Mathlib

/-!
Shallow embedding of the order orchestration service
(src/src/orders/orders.service.ts) and proofs about its operations.

Modelling conventions:
- JavaScript money values (`price`, `totalAmount`) are modelled as `ℚ`;
  quantities and HTTP status codes as `ℕ`.
- The NATS `validate_products` round trip is modelled by a parameter
  `catalogReply : List String → List Product`: the reply the external catalog
  service returns for the list of ids sent in the request payload.
- A thrown `RpcException` or `TypeError` is an `Except.error`; the persistent
  store is a `List Order` threaded explicitly, so each operation returns its
  result together with the store it leaves behind.
- An unguarded property access on `undefined` (e.g. `products.find(...).price`
  when `find` misses) is `ServiceError.typeError` naming the accessed field.
-/

namespace Orders

/-- The `OrderStatus` Prisma enum (PENDING, PAID, DELIVERED, CANCELLED). -/
inductive OrderStatus where
  | PENDING
  | PAID
  | DELIVERED
  | CANCELLED
deriving DecidableEq, Repr

/-- One entry of the catalog reply to `validate_products`: `{id, name, price}`. -/
structure Product where
  id : String
  name : String
  price : ℚ
deriving DecidableEq, Repr

/-- One requested line item of `CreateOrderDto`: `{productId, quantity}`. -/
structure OrderItemDto where
  productId : String
  quantity : ℕ
deriving DecidableEq, Repr

/-- A persisted `OrderItem` row: `{productId, quantity, price}` (the selected columns). -/
structure OrderItem where
  productId : String
  quantity : ℕ
  price : ℚ
deriving DecidableEq, Repr

/-- A persisted `Order` row together with its owned `OrderItem` rows and the
`receiptUrl` of each owned `OrderReceipt` row. -/
structure Order where
  id : String
  totalAmount : ℚ
  totalItems : ℕ
  status : OrderStatus
  paid : Bool
  paidAt : Option ℕ
  stripeChargeId : Option String
  OrderItem : List OrderItem
  receiptUrls : List String
deriving DecidableEq, Repr

/-- An order item as returned to the caller: the persisted columns spread
together with the `name` merged in from the catalog reply. -/
structure EnrichedItem where
  productId : String
  quantity : ℕ
  price : ℚ
  name : String
deriving DecidableEq, Repr

/-- The object `{...order, OrderItem: ...}` returned by `create` and `findOne`:
the order row spread with its items replaced by name-enriched items. -/
structure EnrichedOrder where
  order : Order
  OrderItem : List EnrichedItem
deriving DecidableEq, Repr

/-- The payload of an `RpcException`: `{message, status}`. -/
structure RpcErrorPayload where
  message : String
  status : ℕ
deriving DecidableEq, Repr

/-- Value of `HttpStatus.NOT_FOUND`. -/
def NOT_FOUND : ℕ := 404

/-- A failure surfaced by a service method: a thrown `RpcException`, an
unguarded `TypeError` (property access on `undefined`, naming the accessed
field), or a store-level Prisma error (carrying the Prisma error code). -/
inductive ServiceError where
  | rpc (payload : RpcErrorPayload)
  | typeError (field : String)
  | storeError (code : String)
deriving DecidableEq, Repr

/-- The persistent order store: the `order` table with its child rows. -/
abbrev Store := List Order

/-- Source: `products.find( product => product.id === pid )`. -/
def findProduct (products : List Product) (pid : String) : Option Product :=
  products.find? (fun p => p.id == pid)

/-- Source: `const ids = items.map( item => item.productId )` — the list sent as the
`validate_products` request payload. -/
def ids (items : List OrderItemDto) : List String :=
  items.map (fun it => it.productId)

/-- Source: `createOrderDto.items.reduce((acc, orderItem) => acc + price * quantity, 0)`
where `price` is the unguarded `products.find(...).price`; `none` models the
`TypeError` thrown when some requested productId is absent from the reply. -/
def computeTotalAmount (products : List Product) (items : List OrderItemDto) :
    Option ℚ :=
  items.foldlM
    (fun acc it =>
      (findProduct products it.productId).map
        (fun p => acc + p.price * (it.quantity : ℚ)))
    0

/-- Source: `createOrderDto.items.reduce((acc, orderItem) => acc + orderItem.quantity, 0)`. -/
def computeTotalItems (items : List OrderItemDto) : ℕ :=
  items.foldl (fun acc it => acc + it.quantity) 0

/-- The `createMany.data` rows: each requested item with the unguarded
price lookup `products.find(...).price`. -/
def buildItemRows (products : List Product) (items : List OrderItemDto) :
    Option (List OrderItem) :=
  items.mapM
    (fun it =>
      (findProduct products it.productId).map
        (fun p => { productId := it.productId, quantity := it.quantity, price := p.price }))

/-- Source: `order.OrderItem.map(orderItem => ({...orderItem, name: products.find(...).name}))`
with the unguarded name lookup; `none` models the `TypeError`. -/
def enrichItems (products : List Product) (rows : List OrderItem) :
    Option (List EnrichedItem) :=
  rows.mapM
    (fun it =>
      (findProduct products it.productId).map
        (fun p =>
          { productId := it.productId, quantity := it.quantity,
            price := it.price, name := p.name }))

/-- Embedding of `OrdersService.create(createOrderDto)`. `catalogReply` is the external
catalog reply as a function of the ids sent; `newId` is the UUID the store
assigns to the new order row. Returns the thrown error or the enriched order,
paired with the store left behind. -/
def create (catalogReply : List String → List Product)
    (items : List OrderItemDto) (newId : String) (s : Store) :
    Except ServiceError EnrichedOrder × Store :=
  let products := catalogReply (ids items)
  match computeTotalAmount products items with
  | none => (.error (.typeError "price"), s)
  | some totalAmount =>
    let totalItems := computeTotalItems items
    match buildItemRows products items with
    | none => (.error (.typeError "price"), s)
    | some rows =>
      let order : Order :=
        { id := newId, totalAmount := totalAmount, totalItems := totalItems,
          status := .PENDING, paid := false, paidAt := none,
          stripeChargeId := none, OrderItem := rows, receiptUrls := [] }
      let s' : Store := s ++ [order]
      match enrichItems products order.OrderItem with
      | none => (.error (.typeError "name"), s')
      | some enriched => (.ok { order := order, OrderItem := enriched }, s')

/-- Embedding of `OrdersService.findOne(id)`: `order.findFirst` on the id,
a thrown `RpcException` with `NOT_FOUND` when no row matches, then a second
`validate_products` round trip over the persisted productIds and the unguarded
name merge. `findOne` never writes the store. -/
def findOne (catalogReply : List String → List Product) (id : String)
    (s : Store) : Except ServiceError EnrichedOrder :=
  match s.find? (fun o => o.id == id) with
  | none =>
    .error (.rpc { message := "Order with id " ++ id ++ " not found",
                   status := NOT_FOUND })
  | some order =>
    let productsIds := order.OrderItem.map (fun it => it.productId)
    let products := catalogReply productsIds
    match enrichItems products order.OrderItem with
    | none => .error (.typeError "name")
    | some enriched => .ok { order := order, OrderItem := enriched }

/-- The `PaginationDto`: `page` and `limit` are positive (validated upstream,
defaults 1 and 10), `status` an optional filter. -/
structure PaginationDto where
  page : ℕ := 1
  limit : ℕ := 10
  status : Option OrderStatus := none
deriving DecidableEq, Repr

/-- The Prisma `where: { status }` clause: an `undefined` status filters nothing. -/
def matchesStatus (filter : Option OrderStatus) (o : Order) : Bool :=
  match filter with
  | none => true
  | some st => o.status == st

/-- The `meta` object of `findAll`. -/
structure FindAllMeta where
  page : ℕ
  total : ℕ
  lastPage : ℕ
deriving DecidableEq, Repr

/-- The return shape of `findAll`. -/
structure FindAllResult where
  data : List Order
  meta : FindAllMeta
deriving DecidableEq, Repr

/-- Embedding of `OrdersService.findAll(paginationDto)`: count matching rows, `lastPage =
Math.ceil(totalPages/limit)` (on `ℕ` with positive `limit` this is
`(totalPages + limit - 1) / limit`), and `findMany` with `skip = (page-1)*limit`
and `take = limit` in store order. -/
def findAll (dto : PaginationDto) (s : Store) : FindAllResult :=
  let matching := s.filter (matchesStatus dto.status)
  let totalPages := matching.length
  let lastPage := (totalPages + dto.limit - 1) / dto.limit
  { data := (matching.drop ((dto.page - 1) * dto.limit)).take dto.limit,
    meta := { page := dto.page, total := totalPages, lastPage := lastPage } }

/-- The `ChangeOrderStatus` DTO: `{id, status}` with `status` a member of the
`OrderStatus` enumeration (validated upstream). -/
structure ChangeOrderStatus where
  id : String
  status : OrderStatus
deriving DecidableEq, Repr

/-- Prisma `order.update({where: {id}, data})` on the store: replaces the
matching row; `none` models the `P2025` record-not-found rejection. -/
def updateWhereId (s : Store) (id : String) (f : Order → Order) :
    Option (Order × Store) :=
  match s.find? (fun o => o.id == id) with
  | none => none
  | some o =>
    let o' := f o
    some (o', s.map (fun x => if x.id == id then o' else x))

/-- The return of `changeStatus`: the same-status branch returns the enriched
order loaded by `findOne` unchanged; the update branch returns the updated
order row (no name enrichment on that path). -/
inductive ChangeStatusResult where
  | unchanged (order : EnrichedOrder)
  | updated (order : Order)
deriving DecidableEq, Repr

/-- Embedding of `OrdersService.changeStatus({id, status})`: load via `findOne` (names
re-resolved), return it unchanged if the status already matches, otherwise
`order.update({where: {id}, data: {status}})`. -/
def changeStatus (catalogReply : List String → List Product)
    (dto : ChangeOrderStatus) (s : Store) :
    Except ServiceError ChangeStatusResult × Store :=
  match findOne catalogReply dto.id s with
  | .error e => (.error e, s)
  | .ok order =>
    if order.order.status == dto.status then
      (.ok (.unchanged order), s)
    else
      match updateWhereId s dto.id (fun o => { o with status := dto.status }) with
      | none => (.error (.storeError "P2025"), s)
      | some (o', s') => (.ok (.updated o'), s')

/-- The `PaidOrderDto`: `{orderId, stripePaymentId, receiptUrl}`. -/
structure PaidOrderDto where
  orderId : String
  stripePaymentId : String
  receiptUrl : String
deriving DecidableEq, Repr

/-- The `data` of the paidOrder update applied to a row: sets status PAID,
paid, paidAt (`now` models `new Date()`), stripeChargeId, and the nested
`OrderReceipt.create` appends the receipt. -/
def applyPayment (now : ℕ) (dto : PaidOrderDto) (o : Order) : Order :=
  { o with
    status := .PAID
    paid := true
    paidAt := some now
    stripeChargeId := some dto.stripePaymentId
    receiptUrls := o.receiptUrls ++ [dto.receiptUrl] }

/-- Embedding of `OrdersService.paidOrder(paidOrderDto)`: one atomic
`order.update({where: {id: orderId}, data: {status: PAID, paid: true,
paidAt: new Date(), stripeChargeId, OrderReceipt: {create: {receiptUrl}}}})`;
`now` models `new Date()`.

Modelled from the spec: the Prisma schema (the Order Store layer) is not under
src/. Per the data model an order owns "at most one OrderReceipt", so the
store holds a uniqueness constraint on the receipt-to-order relation and
"must treat a second OrderReceipt creation for the same order as a conflict";
the nested `create` therefore is rejected (Prisma `P2002` unique-constraint
error) when the order already owns a receipt, and the whole update is atomic,
so a rejected nested create leaves the row unchanged. -/
def paidOrder (now : ℕ) (dto : PaidOrderDto) (s : Store) :
    Except ServiceError Order × Store :=
  match s.find? (fun o => o.id == dto.orderId) with
  | none => (.error (.storeError "P2025"), s)
  | some o =>
    if o.receiptUrls.length ≥ 1 then
      (.error (.storeError "P2002"), s)
    else
      let o' : Order := applyPayment now dto o
      (.ok o', s.map (fun x => if x.id == dto.orderId then o' else x))

/-- The catalog price of `pid` in a reply (0 when absent; only used under
hypotheses that make the lookup succeed). -/
def priceOf (products : List Product) (pid : String) : ℚ :=
  ((findProduct products pid).map (fun p => p.price)).getD 0

/-- The catalog name of `pid` in a reply (empty when absent; only used under
hypotheses that make the lookup succeed). -/
def nameOf (products : List Product) (pid : String) : String :=
  ((findProduct products pid).map (fun p => p.name)).getD ""

/-- The specified total: the sum over the items of catalog price times quantity. -/
def sumAmount (products : List Product) (items : List OrderItemDto) : ℚ :=
  (items.map (fun it => priceOf products it.productId * (it.quantity : ℚ))).sum

theorem mapM_option_eq_some {α β : Type} (f : α → Option β) (g : α → β)
    (l : List α) (h : ∀ a ∈ l, f a = some (g a)) :
    l.mapM f = some (l.map g) := by
  rw [← List.mapM'_eq_mapM]
  induction l with
  | nil => rfl
  | cons x xs ih =>
    have hx := h x (List.mem_cons_self x xs)
    have hxs := ih (fun a ha => h a (List.mem_cons_of_mem x ha))
    simp [List.mapM'_cons, hx, hxs]

theorem mapM_option_eq_none {α β : Type} (f : α → Option β) (l : List α)
    (h : ∃ a ∈ l, f a = none) : l.mapM f = none := by
  rw [← List.mapM'_eq_mapM]
  induction l with
  | nil => simp at h
  | cons x xs ih =>
    rcases h with ⟨a, ha, hfa⟩
    rcases List.mem_cons.mp ha with rfl | hmem
    · simp [List.mapM'_cons, hfa]
    · cases hfx : f x with
      | none => simp [List.mapM'_cons, hfx]
      | some b => simp [List.mapM'_cons, hfx, ih ⟨a, hmem, hfa⟩]

theorem computeTotalAmount_step (products : List Product)
    (items : List OrderItemDto) (acc : ℚ)
    (h : ∀ it ∈ items, (findProduct products it.productId).isSome) :
    items.foldlM
      (fun acc it =>
        (findProduct products it.productId).map
          (fun p => acc + p.price * (it.quantity : ℚ)))
      acc = some (acc + sumAmount products items) := by
  induction items generalizing acc with
  | nil => simp [sumAmount]
  | cons x xs ih =>
    have hx := h x (List.mem_cons_self x xs)
    rcases Option.isSome_iff_exists.mp hx with ⟨p, hp⟩
    have hxs := ih (acc + p.price * (x.quantity : ℚ))
      (fun it hit => h it (List.mem_cons_of_mem x hit))
    have hpx : priceOf products x.productId = p.price := by
      simp [priceOf, hp]
    have hstep :
        (x :: xs).foldlM
          (fun acc it =>
            (findProduct products it.productId).map
              (fun p => acc + p.price * (it.quantity : ℚ)))
          acc
          = xs.foldlM
              (fun acc it =>
                (findProduct products it.productId).map
                  (fun p => acc + p.price * (it.quantity : ℚ)))
              (acc + p.price * (x.quantity : ℚ)) := by
      simp [List.foldlM_cons, hp]
    rw [hstep, hxs]
    simp only [sumAmount, List.map_cons, List.sum_cons, hpx]
    rw [add_assoc]

theorem computeTotalAmount_eq_some (products : List Product)
    (items : List OrderItemDto)
    (h : ∀ it ∈ items, (findProduct products it.productId).isSome) :
    computeTotalAmount products items = some (sumAmount products items) := by
  have := computeTotalAmount_step products items 0 h
  simpa [computeTotalAmount] using this

theorem computeTotalAmount_eq_none (products : List Product)
    (items : List OrderItemDto)
    (h : ∃ it ∈ items, findProduct products it.productId = none) :
    computeTotalAmount products items = none := by
  rw [computeTotalAmount]
  generalize (0 : ℚ) = acc
  induction items generalizing acc with
  | nil => simp at h
  | cons x xs ih =>
    rcases h with ⟨a, ha, hfa⟩
    rcases List.mem_cons.mp ha with rfl | hmem
    · simp [List.foldlM_cons, hfa]
    · cases hfx : findProduct products x.productId with
      | none => simp [List.foldlM_cons, hfx]
      | some p => simp [List.foldlM_cons, hfx, ih ⟨a, hmem, hfa⟩]

theorem computeTotalItems_step (items : List OrderItemDto) (acc : ℕ) :
    items.foldl (fun acc it => acc + it.quantity) acc
      = acc + (items.map (fun it => it.quantity)).sum := by
  induction items generalizing acc with
  | nil => simp
  | cons x xs ih => simp [List.foldl_cons, ih, Nat.add_assoc]

theorem computeTotalItems_eq_sum (items : List OrderItemDto) :
    computeTotalItems items = (items.map (fun it => it.quantity)).sum := by
  simpa [computeTotalItems] using computeTotalItems_step items 0

theorem buildItemRows_eq_some (products : List Product)
    (items : List OrderItemDto)
    (h : ∀ it ∈ items, (findProduct products it.productId).isSome) :
    buildItemRows products items
      = some (items.map (fun it =>
          { productId := it.productId, quantity := it.quantity,
            price := priceOf products it.productId : OrderItem })) := by
  apply mapM_option_eq_some
  intro it hit
  rcases Option.isSome_iff_exists.mp (h it hit) with ⟨p, hp⟩
  simp [hp, priceOf]

theorem enrichItems_eq_some (products : List Product) (rows : List OrderItem)
    (h : ∀ it ∈ rows, (findProduct products it.productId).isSome) :
    enrichItems products rows
      = some (rows.map (fun it =>
          { productId := it.productId, quantity := it.quantity,
            price := it.price, name := nameOf products it.productId
            : EnrichedItem })) := by
  apply mapM_option_eq_some
  intro it hit
  rcases Option.isSome_iff_exists.mp (h it hit) with ⟨p, hp⟩
  simp [hp, nameOf]

theorem enrichItems_eq_none (products : List Product) (rows : List OrderItem)
    (h : ∃ it ∈ rows, findProduct products it.productId = none) :
    enrichItems products rows = none := by
  apply mapM_option_eq_none
  rcases h with ⟨it, hit, hf⟩
  exact ⟨it, hit, by simp [hf]⟩

/-- Spec section 7: a structured client-error-class failure is an
`RpcException` whose status code is in the 4xx range. -/
def isClientErrorRpc : ServiceError → Bool
  | .rpc payload => decide (400 ≤ payload.status) && decide (payload.status < 500)
  | _ => false

/-- C1 counterexample: for the request [(p1, 2)] with a catalog reply that
omits p1, create fails with the unguarded `TypeError` on reading `price` of
`undefined`, which is not a client-error-class structured failure and does not
identify the missing productId; the store stays empty. -/
theorem create_unknownProduct_counterexample :
    create (fun _ => []) [{ productId := "p1", quantity := 2 }] "o1" []
        = (.error (.typeError "price"), [])
      ∧ isClientErrorRpc (.typeError "price") = false := by
  constructor
  · rfl
  · rfl

/-- C1 (amended): when some requested productId is absent from the catalog
reply, create fails — with the unguarded price-lookup `TypeError`, not a
structured product-not-found failure — and the store is left unchanged, so no
order and no order items are persisted. -/
theorem create_unknownProduct_fails_and_persists_nothing
    (catalogReply : List String → List Product) (items : List OrderItemDto)
    (newId : String) (s : Store)
    (h : ∃ it ∈ items, findProduct (catalogReply (ids items)) it.productId = none) :
    create catalogReply items newId s = (.error (.typeError "price"), s) := by
  simp only [create]
  rw [computeTotalAmount_eq_none _ _ h]

/-- C1 witness: the amended theorem applied at a concrete request. -/
theorem create_unknownProduct_fails_and_persists_nothing_witness :
    create (fun _ => [{ id := "p2", name := "Gadget", price := 3 }])
        [{ productId := "p2", quantity := 1 }, { productId := "p1", quantity := 2 }]
        "o1" []
      = (.error (.typeError "price"), []) :=
  create_unknownProduct_fails_and_persists_nothing _ _ _ _
    ⟨{ productId := "p1", quantity := 2 }, by decide, by decide⟩

/-- C3 counterexample: for the request [(p1, 2), (p1, 3)] the ids list put in
the `validate_products` payload is ["p1", "p1"]: it is the raw mapped list,
not a deduplicated set. -/
theorem create_sendsRawIds_counterexample :
    ids [{ productId := "p1", quantity := 2 }, { productId := "p1", quantity := 3 }]
        = ["p1", "p1"]
      ∧ ¬ (["p1", "p1"] : List String).Nodup := by
  constructor
  · rfl
  · decide

/-- C3 (amended): create sends the raw list `items.map productId` (duplicates
included) as the `validate_products` payload: its outcome depends on the
catalog reply only at that raw list. -/
theorem create_depends_only_on_sent_ids
    (f g : List String → List Product) (items : List OrderItemDto)
    (newId : String) (s : Store)
    (h : f (ids items) = g (ids items)) :
    create f items newId s = create g items newId s := by
  simp only [create, h]

/-- C3 witness: two catalog replies agreeing on the sent raw list give the
same create outcome. -/
theorem create_depends_only_on_sent_ids_witness :
    create
        (fun l => if l = ["p1", "p1"] then [{ id := "p1", name := "Widget", price := 5 }] else [])
        [{ productId := "p1", quantity := 2 }, { productId := "p1", quantity := 3 }]
        "o1" []
      = create
          (fun _ => [{ id := "p1", name := "Widget", price := 5 }])
          [{ productId := "p1", quantity := 2 }, { productId := "p1", quantity := 3 }]
          "o1" [] :=
  create_depends_only_on_sent_ids _ _ _ _ _ (by decide)

/-- The order row create persists when every lookup succeeds (derived form of
the row built inside create). -/
def createdOrder (products : List Product) (items : List OrderItemDto)
    (newId : String) : Order :=
  { id := newId,
    totalAmount := sumAmount products items,
    totalItems := computeTotalItems items,
    status := .PENDING, paid := false, paidAt := none, stripeChargeId := none,
    OrderItem := items.map (fun it =>
      { productId := it.productId, quantity := it.quantity,
        price := priceOf products it.productId }),
    receiptUrls := [] }

/-- The enriched order create returns when every lookup succeeds. -/
def createdEnriched (products : List Product) (items : List OrderItemDto)
    (newId : String) : EnrichedOrder :=
  { order := createdOrder products items newId,
    OrderItem := (createdOrder products items newId).OrderItem.map (fun it =>
      { productId := it.productId, quantity := it.quantity, price := it.price,
        name := nameOf products it.productId }) }

/-- C4: when every requested productId is present in the catalog reply, create
returns an order — appended to the store — whose totalAmount is the sum of
catalog price times quantity over the items and whose totalItems is the sum of
the quantities. -/
theorem create_totals
    (catalogReply : List String → List Product) (items : List OrderItemDto)
    (newId : String) (s : Store)
    (h : ∀ it ∈ items,
      (findProduct (catalogReply (ids items)) it.productId).isSome) :
    ∃ result : EnrichedOrder,
      create catalogReply items newId s = (.ok result, s ++ [result.order])
      ∧ result.order.totalAmount = sumAmount (catalogReply (ids items)) items
      ∧ result.order.totalItems = (items.map (fun it => it.quantity)).sum := by
  have hta := computeTotalAmount_eq_some (catalogReply (ids items)) items h
  have hrows := buildItemRows_eq_some (catalogReply (ids items)) items h
  have henrich := enrichItems_eq_some (catalogReply (ids items))
    (items.map (fun it =>
      ({ productId := it.productId, quantity := it.quantity,
         price := priceOf (catalogReply (ids items)) it.productId } : OrderItem)))
    (by
      intro r hr
      rcases List.mem_map.mp hr with ⟨it, hit, rfl⟩
      exact h it hit)
  refine ⟨createdEnriched (catalogReply (ids items)) items newId, ?_, ?_, ?_⟩
  · simp only [create, hta, hrows, henrich, createdEnriched, createdOrder,
      List.map_map]
  · rfl
  · exact computeTotalItems_eq_sum items

/-- C4 witness: the spec example — create([(p1, 2)]) with catalog reply
[(p1, Widget, 5)] yields totalAmount 10 and totalItems 2. -/
theorem create_totals_witness :
    ∃ result : EnrichedOrder,
      create (fun _ => [{ id := "p1", name := "Widget", price := 5 }])
          [{ productId := "p1", quantity := 2 }] "o1" []
          = (.ok result, [] ++ [result.order])
      ∧ result.order.totalAmount
          = sumAmount [{ id := "p1", name := "Widget", price := 5 }]
              [{ productId := "p1", quantity := 2 }]
      ∧ result.order.totalItems
          = ([({ productId := "p1", quantity := 2 } : OrderItemDto)].map
              (fun it => it.quantity)).sum :=
  create_totals _ _ _ _ (by decide)

/-- C9: findOne on an id with no matching record fails with the structured
RpcException carrying the distinct NOT_FOUND (404) status and the message
naming the id; this equation is the only outcome on an absent id. -/
theorem findOne_absent_notFound
    (catalogReply : List String → List Product) (id : String) (s : Store)
    (h : ∀ o ∈ s, o.id ≠ id) :
    findOne catalogReply id s
      = .error (.rpc { message := "Order with id " ++ id ++ " not found",
                       status := NOT_FOUND }) := by
  have hf : s.find? (fun o => o.id == id) = none := by
    rw [List.find?_eq_none]
    intro o ho
    simpa using h o ho
  simp only [findOne, hf]

/-- C9 witness: a store holding only order o1 has no record for id o2. -/
theorem findOne_absent_notFound_witness :
    findOne (fun _ => []) "o2"
        [{ id := "o1", totalAmount := 0, totalItems := 0, status := .PENDING,
           paid := false, paidAt := none, stripeChargeId := none,
           OrderItem := [], receiptUrls := [] }]
      = .error (.rpc { message := "Order with id " ++ "o2" ++ " not found",
                       status := NOT_FOUND }) :=
  findOne_absent_notFound _ _ _ (by decide)

/-- C10: when the catalog reply to the findOne re-validation omits some
productId persisted on the order, the unguarded name merge fails with the
`TypeError` on reading `name` of `undefined` — findOne never returns a
partially named order. -/
theorem findOne_missingCatalogEntry_fails
    (catalogReply : List String → List Product) (id : String) (s : Store)
    (o : Order)
    (hfind : s.find? (fun x => x.id == id) = some o)
    (hmiss : ∃ it ∈ o.OrderItem,
      findProduct (catalogReply (o.OrderItem.map (fun it => it.productId)))
        it.productId = none) :
    findOne catalogReply id s = .error (.typeError "name") := by
  simp only [findOne, hfind]
  rw [enrichItems_eq_none _ _ hmiss]

/-- C10 witness: a persisted order with item p1 read back while the catalog
reply is empty. -/
theorem findOne_missingCatalogEntry_fails_witness :
    findOne (fun _ => []) "o1"
        [{ id := "o1", totalAmount := 10, totalItems := 2, status := .PENDING,
           paid := false, paidAt := none, stripeChargeId := none,
           OrderItem := [{ productId := "p1", quantity := 2, price := 5 }],
           receiptUrls := [] }]
      = .error (.typeError "name") :=
  findOne_missingCatalogEntry_fails _ _ _
    { id := "o1", totalAmount := 10, totalItems := 2, status := .PENDING,
      paid := false, paidAt := none, stripeChargeId := none,
      OrderItem := [{ productId := "p1", quantity := 2, price := 5 }],
      receiptUrls := [] }
    (by decide)
    ⟨{ productId := "p1", quantity := 2, price := 5 }, by decide, by decide⟩

/-- C8: findOne on a persisted order whose productIds are all present in the
current catalog reply returns exactly the stored order, each item carrying its
persisted snapshot price and the name resolved from the current reply. -/
theorem findOne_snapshotPrice_currentName
    (catalogReply : List String → List Product) (id : String) (s : Store)
    (o : Order)
    (hfind : s.find? (fun x => x.id == id) = some o)
    (h : ∀ it ∈ o.OrderItem,
      (findProduct (catalogReply (o.OrderItem.map (fun it => it.productId)))
        it.productId).isSome) :
    findOne catalogReply id s
      = .ok { order := o,
              OrderItem := o.OrderItem.map (fun it =>
                { productId := it.productId, quantity := it.quantity,
                  price := it.price,
                  name := nameOf
                    (catalogReply (o.OrderItem.map (fun it => it.productId)))
                    it.productId }) } := by
  simp only [findOne, hfind]
  rw [enrichItems_eq_some _ _ h]

/-- C8 witness: an order created when p1 cost 5 read back after the catalog
price moved to 9 — the item keeps price 5 and gets the current name. -/
theorem findOne_snapshotPrice_currentName_witness :
    findOne (fun _ => [{ id := "p1", name := "Widget", price := 9 }]) "o1"
        [{ id := "o1", totalAmount := 10, totalItems := 2, status := .PENDING,
           paid := false, paidAt := none, stripeChargeId := none,
           OrderItem := [{ productId := "p1", quantity := 2, price := 5 }],
           receiptUrls := [] }]
      = .ok { order :=
                { id := "o1", totalAmount := 10, totalItems := 2,
                  status := .PENDING, paid := false, paidAt := none,
                  stripeChargeId := none,
                  OrderItem := [{ productId := "p1", quantity := 2, price := 5 }],
                  receiptUrls := [] },
              OrderItem :=
                [{ productId := "p1", quantity := 2, price := 5,
                   name := "Widget" }] } := by
  have := findOne_snapshotPrice_currentName
    (fun _ => [{ id := "p1", name := "Widget", price := 9 }]) "o1"
    [{ id := "o1", totalAmount := 10, totalItems := 2, status := .PENDING,
       paid := false, paidAt := none, stripeChargeId := none,
       OrderItem := [{ productId := "p1", quantity := 2, price := 5 }],
       receiptUrls := [] }]
    { id := "o1", totalAmount := 10, totalItems := 2, status := .PENDING,
      paid := false, paidAt := none, stripeChargeId := none,
      OrderItem := [{ productId := "p1", quantity := 2, price := 5 }],
      receiptUrls := [] }
    (by decide) (by decide)
  simpa using this

theorem findOne_ok_elim (catalogReply : List String → List Product)
    (id : String) (s : Store) (enriched : EnrichedOrder)
    (h : findOne catalogReply id s = .ok enriched) :
    s.find? (fun o => o.id == id) = some enriched.order
    ∧ enrichItems
        (catalogReply (enriched.order.OrderItem.map (fun it => it.productId)))
        enriched.order.OrderItem
      = some enriched.OrderItem := by
  simp only [findOne] at h
  split at h
  · exact absurd h (by simp)
  · next o hf =>
    split at h
    · exact absurd h (by simp)
    · next e he =>
      simp only [Except.ok.injEq] at h
      subst h
      exact ⟨hf, he⟩

theorem find?_map_replace (s : Store) (id : String) (o o' : Order)
    (hf : s.find? (fun x => x.id == id) = some o) (hid : o'.id = o.id) :
    (s.map (fun x => if x.id == id then o' else x)).find?
        (fun x => x.id == id)
      = some o' := by
  induction s with
  | nil => simp at hf
  | cons y ys ih =>
    by_cases hy : (y.id == id) = true
    · have hyo : y = o := by
        rw [List.find?_cons_of_pos (p := fun (x : Order) => x.id == id) _ hy] at hf
        exact Option.some.inj hf
      have ho'id : (o'.id == id) = true := by
        rw [hid, ← hyo]
        exact hy
      simp only [List.map_cons]
      rw [if_pos hy]
      exact List.find?_cons_of_pos (p := fun (x : Order) => x.id == id) _ ho'id
    · rw [List.find?_cons_of_neg (p := fun (x : Order) => x.id == id) _ hy] at hf
      simp only [List.map_cons]
      rw [if_neg hy]
      rw [List.find?_cons_of_neg (p := fun (x : Order) => x.id == id) _ hy]
      exact ih hf

/-- C5: changeStatus with the current status of a persisted order is a no-op:
the store is not written and the returned order is the enrichment of the
unchanged pre-call stored row. -/
theorem changeStatus_sameStatus_noop
    (catalogReply : List String → List Product) (id : String) (s : Store)
    (enriched : EnrichedOrder)
    (hfind : findOne catalogReply id s = .ok enriched) :
    changeStatus catalogReply { id := id, status := enriched.order.status } s
        = (.ok (.unchanged enriched), s)
      ∧ s.find? (fun o => o.id == id) = some enriched.order := by
  refine ⟨?_, (findOne_ok_elim _ _ _ _ hfind).1⟩
  simp only [changeStatus, hfind]
  simp

/-- C5 witness: the no-op theorem applied at a one-order store with the
catalog resolving the item name. -/
theorem changeStatus_sameStatus_noop_witness :
    changeStatus (fun _ => [{ id := "p1", name := "Widget", price := 5 }])
        { id := "o1", status := .PENDING }
        [{ id := "o1", totalAmount := 10, totalItems := 2, status := .PENDING,
           paid := false, paidAt := none, stripeChargeId := none,
           OrderItem := [{ productId := "p1", quantity := 2, price := 5 }],
           receiptUrls := [] }]
      = (.ok (.unchanged
          { order :=
              { id := "o1", totalAmount := 10, totalItems := 2,
                status := .PENDING, paid := false, paidAt := none,
                stripeChargeId := none,
                OrderItem := [{ productId := "p1", quantity := 2, price := 5 }],
                receiptUrls := [] },
            OrderItem :=
              [{ productId := "p1", quantity := 2, price := 5,
                 name := "Widget" }] }),
         [{ id := "o1", totalAmount := 10, totalItems := 2, status := .PENDING,
            paid := false, paidAt := none, stripeChargeId := none,
            OrderItem := [{ productId := "p1", quantity := 2, price := 5 }],
            receiptUrls := [] }]) :=
  (changeStatus_sameStatus_noop
    (fun _ => [{ id := "p1", name := "Widget", price := 5 }]) "o1"
    [{ id := "o1", totalAmount := 10, totalItems := 2, status := .PENDING,
       paid := false, paidAt := none, stripeChargeId := none,
       OrderItem := [{ productId := "p1", quantity := 2, price := 5 }],
       receiptUrls := [] }]
    { order :=
        { id := "o1", totalAmount := 10, totalItems := 2, status := .PENDING,
          paid := false, paidAt := none, stripeChargeId := none,
          OrderItem := [{ productId := "p1", quantity := 2, price := 5 }],
          receiptUrls := [] },
      OrderItem :=
        [{ productId := "p1", quantity := 2, price := 5, name := "Widget" }] }
    (by rfl)).1

/-- C6: changeStatus with a recognized status different from the current one
rewrites the stored row to the new status, and a subsequent findOne on the
same store returns an order carrying the new status. -/
theorem changeStatus_updates_and_visible
    (catalogReply : List String → List Product) (id : String)
    (st : OrderStatus) (s : Store) (enriched : EnrichedOrder)
    (hfind : findOne catalogReply id s = .ok enriched)
    (hne : enriched.order.status ≠ st) :
    changeStatus catalogReply { id := id, status := st } s
        = (.ok (.updated { enriched.order with status := st }),
           s.map (fun x =>
             if x.id == id then { enriched.order with status := st } else x))
      ∧ findOne catalogReply id
          (s.map (fun x =>
            if x.id == id then { enriched.order with status := st } else x))
          = .ok { order := { enriched.order with status := st },
                  OrderItem := enriched.OrderItem }
      ∧ ({ enriched.order with status := st } : Order).status = st := by
  obtain ⟨hf, he⟩ := findOne_ok_elim _ _ _ _ hfind
  have hfind' := find?_map_replace s id enriched.order
    { enriched.order with status := st } hf rfl
  refine ⟨?_, ?_, rfl⟩
  · simp only [changeStatus, hfind, updateWhereId, hf]
    simp [hne]
  · simp only [findOne, hfind']
    rw [show ({ enriched.order with status := st } : Order).OrderItem
          = enriched.order.OrderItem from rfl]
    rw [he]

/-- C6 witness: moving the sample order from PENDING to DELIVERED. -/
theorem changeStatus_updates_and_visible_witness :
    changeStatus (fun _ => [{ id := "p1", name := "Widget", price := 5 }])
        { id := "o1", status := .DELIVERED }
        [{ id := "o1", totalAmount := 10, totalItems := 2, status := .PENDING,
           paid := false, paidAt := none, stripeChargeId := none,
           OrderItem := [{ productId := "p1", quantity := 2, price := 5 }],
           receiptUrls := [] }]
        = (.ok (.updated
            { id := "o1", totalAmount := 10, totalItems := 2,
              status := .DELIVERED, paid := false, paidAt := none,
              stripeChargeId := none,
              OrderItem := [{ productId := "p1", quantity := 2, price := 5 }],
              receiptUrls := [] }),
           [{ id := "o1", totalAmount := 10, totalItems := 2,
              status := .DELIVERED, paid := false, paidAt := none,
              stripeChargeId := none,
              OrderItem := [{ productId := "p1", quantity := 2, price := 5 }],
              receiptUrls := [] }])
      ∧ findOne (fun _ => [{ id := "p1", name := "Widget", price := 5 }]) "o1"
          [{ id := "o1", totalAmount := 10, totalItems := 2,
             status := .DELIVERED, paid := false, paidAt := none,
             stripeChargeId := none,
             OrderItem := [{ productId := "p1", quantity := 2, price := 5 }],
             receiptUrls := [] }]
          = .ok { order :=
                    { id := "o1", totalAmount := 10, totalItems := 2,
                      status := .DELIVERED, paid := false, paidAt := none,
                      stripeChargeId := none,
                      OrderItem := [{ productId := "p1", quantity := 2,
                                      price := 5 }],
                      receiptUrls := [] },
                  OrderItem :=
                    [{ productId := "p1", quantity := 2, price := 5,
                       name := "Widget" }] } := by
  have h := changeStatus_updates_and_visible
    (fun _ => [{ id := "p1", name := "Widget", price := 5 }]) "o1" .DELIVERED
    [{ id := "o1", totalAmount := 10, totalItems := 2, status := .PENDING,
       paid := false, paidAt := none, stripeChargeId := none,
       OrderItem := [{ productId := "p1", quantity := 2, price := 5 }],
       receiptUrls := [] }]
    { order :=
        { id := "o1", totalAmount := 10, totalItems := 2, status := .PENDING,
          paid := false, paidAt := none, stripeChargeId := none,
          OrderItem := [{ productId := "p1", quantity := 2, price := 5 }],
          receiptUrls := [] },
      OrderItem :=
        [{ productId := "p1", quantity := 2, price := 5, name := "Widget" }] }
    (by rfl) (by decide)
  exact ⟨h.1, h.2.1⟩

theorem ceil_div_formula (total limit : ℕ) (hl : 1 ≤ limit) :
    (total + limit - 1) / limit = ⌈(total : ℚ) / (limit : ℚ)⌉₊ := by
  have hpos : (0 : ℚ) < (limit : ℚ) := by exact_mod_cast hl
  have key : ∀ c : ℕ,
      ((total + limit - 1) / limit ≤ c ↔ ⌈(total : ℚ) / (limit : ℚ)⌉₊ ≤ c) := by
    intro c
    have h1 : (total + limit - 1) / limit ≤ c ↔ total ≤ limit * c := by
      rw [Nat.div_le_iff_le_mul_add_pred hl]
      constructor
      · intro h
        omega
      · intro h
        omega
    have h2 : ⌈(total : ℚ) / (limit : ℚ)⌉₊ ≤ c ↔ total ≤ limit * c := by
      rw [Nat.ceil_le, div_le_iff₀ hpos, mul_comm (c : ℚ)]
      exact_mod_cast Iff.rfl
    rw [h1, h2]
  exact le_antisymm ((key _).mpr le_rfl) ((key _).mp le_rfl)

/-- C7: for positive page and limit, findAll reports meta.total equal to the
count of orders matching the status filter, meta.lastPage equal to the ceiling
of total over limit, and returns as data the slice of the matching orders
starting at offset (page-1)*limit of length at most limit. -/
theorem findAll_pagination (dto : PaginationDto) (s : Store)
    (hpage : 1 ≤ dto.page) (hlimit : 1 ≤ dto.limit) :
    (findAll dto s).meta.total = (s.filter (matchesStatus dto.status)).length
    ∧ (findAll dto s).meta.lastPage
        = ⌈((s.filter (matchesStatus dto.status)).length : ℚ) / (dto.limit : ℚ)⌉₊
    ∧ (findAll dto s).data
        = ((s.filter (matchesStatus dto.status)).drop
            ((dto.page - 1) * dto.limit)).take dto.limit
    ∧ (findAll dto s).data.length ≤ dto.limit := by
  refine ⟨rfl, ?_, rfl, ?_⟩
  · exact ceil_div_formula _ _ hlimit
  · exact List.length_take_le _ _

/-- A store of 25 PENDING orders (ids o0 … o24, no items). -/
def store25 : Store :=
  (List.range 25).map (fun i =>
    { id := "o" ++ toString i, totalAmount := 0, totalItems := 0,
      status := .PENDING, paid := false, paidAt := none,
      stripeChargeId := none, OrderItem := [], receiptUrls := [] })

/-- C7 witness: with limit 10, page 2 and 25 matching orders, findAll reports
total 25, lastPage 3 and returns the slice starting at skip 10. -/
theorem findAll_pagination_witness :
    (findAll { page := 2, limit := 10, status := none } store25).meta.total = 25
    ∧ (findAll { page := 2, limit := 10, status := none } store25).meta.lastPage
        = 3
    ∧ (findAll { page := 2, limit := 10, status := none } store25).data
        = (store25.drop 10).take 10
    ∧ (findAll { page := 2, limit := 10, status := none } store25).data.length
        ≤ 10 := by
  have h := findAll_pagination { page := 2, limit := 10, status := none }
    store25 (by decide) (by decide)
  refine ⟨?_, ?_, ?_, h.2.2.2⟩
  · rw [h.1]
    decide
  · rw [h.2.1]
    have hlen :
        (List.filter
          (matchesStatus
            ({ page := 2, limit := 10, status := none } : PaginationDto).status)
          store25).length = 25 := by
      decide
    rw [hlen]
    show ⌈(25 : ℚ) / (10 : ℚ)⌉₊ = 3
    rw [Nat.ceil_eq_iff (by norm_num)]
    norm_num
  · rw [h.2.2.1]
    decide

/-- The `PaidOrderDto` of the sample payment confirmation. -/
def samplePaidDto : PaidOrderDto :=
  { orderId := "o1", stripePaymentId := "ch_1", receiptUrl := "https://r/1" }

/-- The sample pending unpaid order o1. -/
def samplePendingOrder : Order :=
  { id := "o1", totalAmount := 10, totalItems := 2, status := .PENDING,
    paid := false, paidAt := none, stripeChargeId := none,
    OrderItem := [{ productId := "p1", quantity := 2, price := 5 }],
    receiptUrls := [] }

/-- C2 counterexample: applying paidOrder a second time with the very same
payload attempts to create a second OrderReceipt for the order and is rejected
by the store with the unique-constraint conflict — an error IS raised on the
second application, against the claim. -/
theorem paidOrder_twice_counterexample :
    (paidOrder 100 samplePaidDto
        (paidOrder 100 samplePaidDto [samplePendingOrder]).2).1
      = .error (.storeError "P2002") := by
  rfl

/-- C2 (amended): applying paidOrder twice with the same orderId, payment
reference and receiptUrl leaves the order in the same final state as applying
it once — paid, status PAID, exactly one receipt, no duplicate receipts — but
the second application is rejected with the store receipt-uniqueness conflict
error (leaving the store untouched) instead of succeeding silently. -/
theorem paidOrder_twice_same_state_second_errors
    (now now2 : ℕ) (dto : PaidOrderDto) (s : Store) (o : Order)
    (hfind : s.find? (fun x => x.id == dto.orderId) = some o)
    (hnorec : o.receiptUrls = []) :
    ∃ o' : Order, ∃ s' : Store,
      paidOrder now dto s = (.ok o', s')
      ∧ o'.paid = true
      ∧ o'.status = .PAID
      ∧ o'.receiptUrls = [dto.receiptUrl]
      ∧ paidOrder now2 dto s' = (.error (.storeError "P2002"), s') := by
  have hfind' :
      (s.map (fun x =>
        if x.id == dto.orderId then applyPayment now dto o else x)).find?
          (fun x => x.id == dto.orderId)
        = some (applyPayment now dto o) :=
    find?_map_replace s dto.orderId o (applyPayment now dto o) hfind rfl
  apply Exists.intro (applyPayment now dto o)
  apply Exists.intro (s.map (fun x =>
    if x.id == dto.orderId then applyPayment now dto o else x))
  refine ⟨?_, rfl, rfl, ?_, ?_⟩
  · simp only [paidOrder, hfind]
    rw [if_neg (by simp [hnorec])]
  · simp [applyPayment, hnorec]
  · simp only [paidOrder, hfind']
    rw [if_pos (by simp [applyPayment, hnorec])]

/-- C2 witness: the amended theorem applied at the sample pending order. -/
theorem paidOrder_twice_same_state_second_errors_witness :
    ∃ o' : Order, ∃ s' : Store,
      paidOrder 100 samplePaidDto [samplePendingOrder] = (.ok o', s')
      ∧ o'.paid = true
      ∧ o'.status = .PAID
      ∧ o'.receiptUrls = [samplePaidDto.receiptUrl]
      ∧ paidOrder 200 samplePaidDto s' = (.error (.storeError "P2002"), s') :=
  paidOrder_twice_same_state_second_errors 100 200 samplePaidDto
    [samplePendingOrder] samplePendingOrder (by decide) (by decide)

end Orders
